import Mathlib

/-!
Shallow embedding of the simplify-commerce client SDK core:
the JWS signer and header validator (src/lib/simplifyJws.ts),
credential utilities (lib/simplifyUtils), the URI builder and
dispatcher pure prefix (lib/payments.ts), and the constants module.

JavaScript objects are modelled as association lists of string keys;
primitive JS values as an inductive of strings and integers, with one
level of object nesting (all the source code dereferences).  The wall
clock and the nonce source are passed as explicit arguments.
-/

namespace Simplify

/-- A primitive JavaScript value as used by the SDK: a string or an
integer number. -/
inductive JSVal where
  | str (s : String)
  | num (n : Int)
deriving DecidableEq, Repr

/-- A field of a JavaScript object: a primitive value or a nested
object of primitives (the deepest shape the SDK dereferences, e.g.
params.filter[key]). -/
inductive JSField where
  | v (x : JSVal)
  | o (fields : List (String × JSVal))
deriving DecidableEq, Repr

/-- A JavaScript object: an association list of distinct string keys. -/
abbrev JSObj := List (String × JSField)

/-- A JWS header object as decoded from an envelope. -/
abbrev Header := List (String × JSField)

/-- Property access on a JS object: the value under the key, or none
when the property is absent (JS undefined). -/
def lookupField (o : List (String × α)) (k : String) : Option α :=
  match o.find? (fun p => p.1 == k) with
  | some p => some p.2
  | none => none

/-- Shorthand for a string-valued object field. -/
def fstr (s : String) : JSField := .v (.str s)

/-- JS string coercion of a primitive value (as in string concatenation). -/
def JSVal.toStr : JSVal → String
  | .str s => s
  | .num n => toString n

/-- JS string coercion of an object field; a nested object coerces to
the JS object placeholder string. -/
def JSField.toStr : JSField → String
  | .v x => x.toStr
  | .o _ => "[object Object]"

/-- JS string coercion of a possibly-undefined value: undefined coerces
to the string undefined. -/
def jsPlusOpt : Option JSField → String
  | none => "undefined"
  | some f => f.toStr

/-- The params argument of the SDK entry points: either a bare string
(show/delete identifiers, OAuth tokens) or an object. -/
inductive JSParams where
  | str (s : String)
  | obj (o : JSObj)
deriving DecidableEq, Repr

/-- Property access on params; a bare string has none of the accessed
properties. -/
def JSParams.get : JSParams → String → Option JSField
  | .str _, _ => none
  | .obj o, k => lookupField o k

/-- JS string coercion of the whole params value. -/
def JSParams.toStr : JSParams → String
  | .str s => s
  | .obj _ => "[object Object]"

/-- simplifyUtils.isUndefined: whether a value is JS undefined. -/
def isUndefined (o : Option α) : Bool := o.isNone

/-- simplifyUtils.isLiveKey: the key has length at least 4 and its first
four characters are the live prefix lvpb. -/
def isLiveKey (key : String) : Bool :=
  key.length ≥ 4 && key.take 4 == "lvpb"

/-! Constants (lib/constants and the HEADERS object of simplifyJws). -/

def API_BASE_LIVE_URL : String := "https://api.simplify.com/v1/api"

def API_BASE_SANDBOX_URL : String := "https://sandbox.simplify.com/v1/api"

def OAUTH_BASE_URL : String := "https://www.simplify.com/commerce/oauth"

def HEADERS_URI : String := "api.simplifycommerce.com/uri"

def HEADERS_TIMESTAMP : String := "api.simplifycommerce.com/timestamp"

def HEADERS_NONCE : String := "api.simplifycommerce.com/nonce"

def HEADERS_TOKEN : String := "api.simplifycommerce.com/token"

def HEADERS_ALGORITHM : String := "HS256"

def HEADERS_TYPE : String := "JWS"

def MAX_TIMESTAMP_DIFF : Int := 1000 * 60 * 5

/-- The credential pair; both keys present (execute checks presence
before the Signer runs). -/
structure Auth where
  publicKey : String
  privateKey : String
deriving DecidableEq, Repr

/-- The JWS header built by getJWSSignature: typ, alg, kid, then the
bearer-token claim when params.accessToken is defined, then the URI,
timestamp (epoch milliseconds as a string) and nonce claims, in JS
object insertion order.  now and nonce stand for the wall clock and
the random nonce source. -/
def buildJWSHeader (auth : Auth) (params : JSParams) (uri : String)
    (now : Int) (nonce : String) : Header :=
  let base := [("typ", fstr HEADERS_TYPE),
               ("alg", fstr HEADERS_ALGORITHM),
               ("kid", fstr auth.publicKey)]
  let withTok :=
    match params.get "accessToken" with
    | some tok => base ++ [(HEADERS_TOKEN, tok)]
    | none => base
  withTok ++ [(HEADERS_URI, fstr uri),
              (HEADERS_TIMESTAMP, fstr (toString now)),
              (HEADERS_NONCE, fstr nonce)]

/-- Modelled from the spec: the compact signed envelope produced by the
external jws node module.  The spec (section 4.2) states the output is a
compact three-part signed string with header, payload and signature each
independently recoverable by decoding; we model it as the recoverable
record of header and payload together with the base64 key material the
signature is computed from. -/
structure Envelope where
  header : Header
  payload : JSParams
  secretB64 : String
deriving DecidableEq, Repr

/-- getJWSSignature: build the JWS header and sign the params payload
with the base64-decoded private key via jws.sign. -/
def getJWSSignature (auth : Auth) (params : JSParams) (uri : String)
    (now : Int) (nonce : String) : Envelope :=
  { header := buildJWSHeader auth params uri now nonce,
    payload := params,
    secretB64 := auth.privateKey }

/-- Modelled from the spec: decodeSignature wraps the external jws
module decode, a pure structural decode recovering header and payload
from the compact envelope (spec section 4.3). -/
def decodeSignature (e : Envelope) : Envelope := e

/-- The two concrete error kinds of the error module: API errors and
JWS errors, each carrying a message. -/
inductive SimplifyErr where
  | api (msg : String)
  | jws (msg : String)
deriving DecidableEq, Repr

/-- JS numeric coercion of a header field, as in the subtraction of the
timestamp claim from the clock: numbers pass through, numeric strings
parse, anything else is NaN (none). -/
def jsToNum? : JSField → Option Int
  | .v (.num n) => some n
  | .v (.str s) => s.toInt?
  | .o _ => none

/-- The final freshness test of isJWSHeaderValid: now minus the
timestamp claim exceeds MAX_TIMESTAMP_DIFF.  A missing or non-numeric
claim makes the JS subtraction NaN, and the NaN comparison is false. -/
def tsExpired (ts? : Option JSField) (now : Int) : Bool :=
  match ts? with
  | none => false
  | some v =>
    match jsToNum? v with
    | none => false
    | some t => decide (now - t > MAX_TIMESTAMP_DIFF)

/-- isJWSHeaderValid, translated check for check from the source: the
eleven guarded early returns, each reporting one JWS error through the
callback (modelled as the returned error list) and returning false, and
the final success return of true with no callback. -/
def isJWSHeaderValid (header : Header) (publicKey : String) (url : String)
    (now : Int) : Bool × List SimplifyErr :=
  if lookupField header "alg" ≠ some (fstr HEADERS_ALGORITHM) then
    (false, [.jws "Incorrect JWS algorithm found. HS256 is required"])
  else if header.length ≠ 7 then
    (false, [.jws "Incorrect number of header parameters found"])
  else if lookupField header "typ" ≠ some (fstr HEADERS_TYPE) then
    (false, [.jws "Incorrect JWS type found"])
  else if isUndefined (lookupField header "kid") then
    (false, [.jws "Missing Key ID"])
  else if lookupField header "kid" ≠ some (fstr publicKey) ∧ ¬ isLiveKey publicKey then
    (false, [.jws "Incorrect Key ID"])
  else if isUndefined (some HEADERS_URI) then
    (false, [.jws "Missing URI"])
  else if lookupField header HEADERS_URI ≠ some (fstr url) then
    (false, [.jws "Invalid URI found"])
  else if isUndefined (lookupField header "uname") then
    (false, [.jws "Missing usename"])
  else if isUndefined (some HEADERS_NONCE) then
    (false, [.jws "Missing nonce"])
  else if isUndefined (some HEADERS_TIMESTAMP) then
    (false, [.jws "Missing timestamp"])
  else if tsExpired (lookupField header HEADERS_TIMESTAMP) now then
    (false, [.jws "Timestamp expired"])
  else
    (true, [])

/-- Short-circuiting run of an ordered list of checks: the first check
whose guard fires yields false and exactly its error; if none fires the
result is true with no error. -/
def firstFail : List (Bool × SimplifyErr) → Bool × List SimplifyErr
  | [] => (true, [])
  | (b, e) :: rest => if b then (false, [e]) else firstFail rest

/-- The ordered list of header checks (guard, error) as the spec
enumerates them: algorithm, header count, type, key-id presence, key-id
match (waived for live keys), URI presence, URI match, username
presence, nonce presence, timestamp presence, timestamp freshness. -/
def headerChecks (header : Header) (publicKey : String) (url : String)
    (now : Int) : List (Bool × SimplifyErr) :=
  [ (decide (lookupField header "alg" ≠ some (fstr HEADERS_ALGORITHM)),
     .jws "Incorrect JWS algorithm found. HS256 is required"),
    (decide (header.length ≠ 7),
     .jws "Incorrect number of header parameters found"),
    (decide (lookupField header "typ" ≠ some (fstr HEADERS_TYPE)),
     .jws "Incorrect JWS type found"),
    (isUndefined (lookupField header "kid"),
     .jws "Missing Key ID"),
    (decide (lookupField header "kid" ≠ some (fstr publicKey)) && ! isLiveKey publicKey,
     .jws "Incorrect Key ID"),
    (isUndefined (some HEADERS_URI),
     .jws "Missing URI"),
    (decide (lookupField header HEADERS_URI ≠ some (fstr url)),
     .jws "Invalid URI found"),
    (isUndefined (lookupField header "uname"),
     .jws "Missing usename"),
    (isUndefined (some HEADERS_NONCE),
     .jws "Missing nonce"),
    (isUndefined (some HEADERS_TIMESTAMP),
     .jws "Missing timestamp"),
    (tsExpired (lookupField header HEADERS_TIMESTAMP) now,
     .jws "Timestamp expired") ]

/-- The tail of isJWSHeaderValid from the URI-presence check on, used to
state that a waived key-id mismatch proceeds to the next check. -/
def uriAndLaterChecks (header : Header) (url : String) (now : Int) :
    Bool × List SimplifyErr :=
  if isUndefined (some HEADERS_URI) then
    (false, [.jws "Missing URI"])
  else if lookupField header HEADERS_URI ≠ some (fstr url) then
    (false, [.jws "Invalid URI found"])
  else if isUndefined (lookupField header "uname") then
    (false, [.jws "Missing usename"])
  else if isUndefined (some HEADERS_NONCE) then
    (false, [.jws "Missing nonce"])
  else if isUndefined (some HEADERS_TIMESTAMP) then
    (false, [.jws "Missing timestamp"])
  else if tsExpired (lookupField header HEADERS_TIMESTAMP) now then
    (false, [.jws "Timestamp expired"])
  else
    (true, [])

/-- getHttpMethod: the action-to-method mapping of the dispatcher; an
unknown action leaves the method undefined. -/
def getHttpMethod (action : String) : Option String :=
  if action = "create" then some "POST"
  else if action = "delete" then some "DELETE"
  else if action = "update" then some "PUT"
  else if action = "show" ∨ action = "list" then some "GET"
  else none

/-- The query terms pushed by the list branch of getURI: the max term if
params.max is defined, then the offset term, then one filter term per
entry of the filter object in insertion order, then one sorting term per
entry of the sorting object.  A primitive (non-object) filter or sorting
value contributes no terms in this model (the for-in loop enumerates no
entries of a number; enumerating the index properties of a primitive
string is outside the modelled use). -/
def listQueryTerms (params : JSParams) : List String :=
  (match params.get "max" with
   | some v => ["max=" ++ v.toStr]
   | none => []) ++
  (match params.get "offset" with
   | some v => ["offset=" ++ v.toStr]
   | none => []) ++
  (match params.get "filter" with
   | some (.o fields) =>
     fields.map (fun p => "filter[" ++ p.1 ++ "]=" ++ p.2.toStr)
   | some (.v _) => []
   | none => []) ++
  (match params.get "sorting" with
   | some (.o fields) =>
     fields.map (fun p => "sorting[" ++ p.1 ++ "]=" ++ p.2.toStr)
   | some (.v _) => []
   | none => [])

/-- getURI: base host chosen by key type, then the domain type path
segment, then the per-action path segment or list query terms; the
query separator is appended only when at least one term exists.  The
final url.parse of the source is an external parse of this string. -/
def getURI (publicKey : String) (domainType : String) (action : String)
    (params : JSParams) : String :=
  let base := if isLiveKey publicKey then API_BASE_LIVE_URL else API_BASE_SANDBOX_URL
  let uri := base ++ "/" ++ domainType
  let (uri, query) : String × List String :=
    match action with
    | "create" => (uri, [])
    | "show" | "delete" => (uri ++ "/" ++ params.toStr, [])
    | "update" => (uri ++ "/" ++ jsPlusOpt (params.get "id"), [])
    | "list" => (uri, listQueryTerms params)
    | _ => (uri, [])
  if query.length > 0 then uri ++ "?" ++ String.intercalate "&" query
  else uri

/-- getAccessTokenURI: the OAuth base host with /token appended for
create and refresh and /revoke for revoke; other actions leave the base
unchanged. -/
def getAccessTokenURI (action : String) : String :=
  match action with
  | "create" | "refresh" => OAUTH_BASE_URL ++ "/token"
  | "revoke" => OAUTH_BASE_URL ++ "/revoke"
  | _ => OAUTH_BASE_URL

/-- getAccessTokenParams: the literal OAuth query string per action;
none models the undefined return for an action outside the three OAuth
actions (the switch has no default). -/
def getAccessTokenParams (action : String) (params : JSParams) : Option String :=
  match action with
  | "create" =>
    some ("grant_type=authorization_code&code=" ++ jsPlusOpt (params.get "authCode")
          ++ "&redirect_uri=" ++ jsPlusOpt (params.get "redirectUri"))
  | "refresh" =>
    some ("grant_type=refresh_token&refresh_token=" ++ params.toStr)
  | "revoke" =>
    some ("token=" ++ params.toStr)
  | _ => none

/-- The pure request plan execute computes before touching the network:
the request URI, the HTTP method, the params actually handed to the
Signer, and the signed envelope. -/
structure RequestPlan where
  uri : String
  httpMethod : Option String
  signedParams : JSParams
  envelope : Envelope
deriving DecidableEq, Repr

/-- The network-independent prefix of execute: the key-presence check,
the accessToken versus generic branch, and the signing call.  none
models the aborted call when a key is missing, and the crash when an
accessToken call reaches the Signer with undefined params (an action
outside create/refresh/revoke). -/
def executePlan (publicKey? privateKey? : Option String)
    (domainType : String) (action : String) (params : JSParams)
    (now : Int) (nonce : String) : Option RequestPlan :=
  match publicKey?, privateKey? with
  | some pk, some sk =>
    if domainType = "accessToken" then
      match getAccessTokenParams action params with
      | some q =>
        let uri := getAccessTokenURI action
        some { uri := uri, httpMethod := some "POST",
               signedParams := .str q,
               envelope := getJWSSignature ⟨pk, sk⟩ (.str q) uri now nonce }
      | none => none
    else
      let uri := getURI pk domainType action params
      some { uri := uri, httpMethod := getHttpMethod action,
             signedParams := params,
             envelope := getJWSSignature ⟨pk, sk⟩ params uri now nonce }
  | _, _ => none

/-- The outcome of the network exchange as execute observes it: a fully
buffered response body already parsed as JSON, or an error event with a
code. -/
inductive HttpOutcome where
  | response (json : JSObj)
  | netError (code : String)
deriving DecidableEq, Repr

/-- Every callback invocation execute can perform, as the pair of
arguments passed, in order: the two key-presence failures, the API
error or success split on the parsed response, and the two transport
error cases. -/
def executeCallbacks (publicKey? privateKey? : Option String)
    (outcome : HttpOutcome) : List (Option SimplifyErr × Option JSObj) :=
  match publicKey? with
  | none => [(some (.api "Missing API Key - Simplify.PUBLIC_KEY"), none)]
  | some _ =>
    match privateKey? with
    | none => [(some (.api "Missing API Key - Simplify.PRIVATE_KEY"), none)]
    | some _ =>
      match outcome with
      | .response j =>
        if isUndefined (lookupField j "error") then [(none, some j)]
        else [(some (.api "Error executing API call"), none)]
      | .netError c =>
        if c = "ECONNRESET" then
          [(some (.api "The API request has timed out"), none)]
        else
          [(some (.api "Error executing API call"), none)]

/-- Every callback invocation jwsDecode can perform: the key-presence
failures, the missing payload and url parameter failures, the missing
decoded payload failure, the errors reported through the shared
callback by isJWSHeaderValid, and the final success with the parsed
event body. -/
def jwsDecodeCallbacks (publicKey? privateKey? : Option String)
    (payload? : Option (Header × Option JSObj)) (url? : Option String)
    (now : Int) : List (Option SimplifyErr × Option JSObj) :=
  match publicKey? with
  | none => [(some (.api "Missing API Key - Simplify.PUBLIC_KEY"), none)]
  | some pk =>
    match privateKey? with
    | none => [(some (.api "Missing API Key - Simplify.PRIVATE_KEY"), none)]
    | some _ =>
      match payload? with
      | none => [(some (.jws "Missing payload paramater"), none)]
      | some (header, body?) =>
        match url? with
        | none => [(some (.jws "Missing url paramater"), none)]
        | some u =>
          match body? with
          | none => [(some (.jws "Event data is missing its payload"), none)]
          | some body =>
            match isJWSHeaderValid header pk u now with
            | (true, _) => [(none, some body)]
            | (false, errs) => errs.map (fun e => (some e, none))

/-- The query-term list as the spec words it: the max term when max is
present, then the offset term when offset is present, then one filter
term per entry of the filter mapping in insertion order, then one
sorting term per entry of the sorting mapping; absent fields contribute
nothing. -/
def specListTerms (mo oo : Option JSField)
    (fl so : Option (List (String × JSVal))) : List String :=
  (match mo with | some v => ["max=" ++ v.toStr] | none => []) ++
  (match oo with | some v => ["offset=" ++ v.toStr] | none => []) ++
  ((fl.getD []).map (fun p => "filter[" ++ p.1 ++ "]=" ++ p.2.toStr)) ++
  ((so.getD []).map (fun p => "sorting[" ++ p.1 ++ "]=" ++ p.2.toStr))

/-- A seven-claim header with a numeric timestamp claim, used to
instantiate the freshness theorem. -/
def exHeaderTS : Header :=
  [("alg", fstr HEADERS_ALGORITHM), ("typ", fstr HEADERS_TYPE),
   ("kid", fstr "pk"), (HEADERS_URI, fstr "https://x"),
   ("uname", fstr "bob"), (HEADERS_TIMESTAMP, JSField.v (JSVal.num 1000)),
   (HEADERS_NONCE, fstr "n")]

/-- A seven-claim header that lacks the URI claim but passes the
algorithm, count, type and key-id checks. -/
def exHeaderNoURI : Header :=
  [("alg", fstr HEADERS_ALGORITHM), ("typ", fstr HEADERS_TYPE),
   ("kid", fstr "pk"), ("uname", fstr "bob"),
   (HEADERS_TIMESTAMP, fstr "0"), (HEADERS_NONCE, fstr "n"),
   ("x", fstr "y")]

/-- A seven-claim header whose kid claim matches no caller key, used to
instantiate the live-key exemption theorem. -/
def exHeaderKid : Header :=
  [("alg", fstr HEADERS_ALGORITHM), ("typ", fstr HEADERS_TYPE),
   ("kid", fstr "other"), (HEADERS_URI, fstr "https://x"),
   ("uname", fstr "bob"), (HEADERS_TIMESTAMP, JSField.v (JSVal.num 0)),
   (HEADERS_NONCE, fstr "n")]

/-- The list-action params of the spec scenario: max 10, offset 0 and a
one-entry filter. -/
def exListObj : JSObj :=
  [("max", JSField.v (JSVal.num 10)), ("offset", JSField.v (JSVal.num 0)),
   ("filter", JSField.o [("text", JSVal.str "John")])]

/-- A successful parsed response body. -/
def exResponse : JSObj := [("id", fstr "abc")]

/-- Every run of an ordered check list either passes with no error or
fails with exactly one error. -/
theorem firstFail_shape (l : List (Bool × SimplifyErr)) :
    firstFail l = (true, [])
    ∨ ((firstFail l).1 = false ∧ (firstFail l).2.length = 1) := by
  induction l with
  | nil => exact Or.inl rfl
  | cons p rest ih =>
    obtain ⟨b, e⟩ := p
    cases b
    · simpa [firstFail] using ih
    · exact Or.inr (by simp [firstFail])

/-- C2: isJWSHeaderValid runs exactly the ordered check list (algorithm,
header count, type, key-id presence, key-id match, URI presence, URI
match, username presence, nonce presence, timestamp presence, timestamp
freshness), short-circuits at the first failing check; every failure
returns false with exactly one reported error, and success returns true
with no callback invocation. -/
theorem isJWSHeaderValid_ordered_checks (header : Header)
    (publicKey url : String) (now : Int) :
    isJWSHeaderValid header publicKey url now
      = firstFail (headerChecks header publicKey url now)
    ∧ (isJWSHeaderValid header publicKey url now = (true, [])
       ∨ ((isJWSHeaderValid header publicKey url now).1 = false
          ∧ (isJWSHeaderValid header publicKey url now).2.length = 1)) := by
  have heq : isJWSHeaderValid header publicKey url now
      = firstFail (headerChecks header publicKey url now) := by
    simp only [isJWSHeaderValid, headerChecks, firstFail, Bool.and_eq_true,
      decide_eq_true_eq, Bool.not_eq_true', Bool.not_eq_true]
  exact ⟨heq, heq ▸ firstFail_shape _⟩

/-- C8: the dispatcher maps actions on generic resources to HTTP methods
exactly as create to POST, show to GET, list to GET, update to PUT and
delete to DELETE, and the execute plan for a non-accessToken domain type
uses exactly that mapping. -/
theorem getHttpMethod_mapping :
    getHttpMethod "create" = some "POST"
    ∧ getHttpMethod "show" = some "GET"
    ∧ getHttpMethod "list" = some "GET"
    ∧ getHttpMethod "update" = some "PUT"
    ∧ getHttpMethod "delete" = some "DELETE"
    ∧ ∀ (pk sk domainType action : String) (params : JSParams)
        (now : Int) (nonce : String), domainType ≠ "accessToken" →
        (executePlan (some pk) (some sk) domainType action params now nonce).map
            (fun plan => plan.httpMethod)
          = some (getHttpMethod action) := by
  refine ⟨by decide, by decide, by decide, by decide, by decide, ?_⟩
  intro pk sk domainType action params now nonce hdt
  simp [executePlan, hdt]

/-- Witness for C8 at a concrete non-accessToken call. -/
theorem getHttpMethod_mapping_witness :
    ("payment" : String) ≠ "accessToken"
    ∧ (executePlan (some "sb") (some "k") "payment" "create"
          (JSParams.obj []) 0 "n").map (fun plan => plan.httpMethod)
        = some (getHttpMethod "create") :=
  ⟨by decide,
   getHttpMethod_mapping.2.2.2.2.2 "sb" "k" "payment" "create"
     (JSParams.obj []) 0 "n" (by decide)⟩

/-- C5: decoding the envelope produced by the Signer recovers a header
whose kid claim equals the public key of the credentials and a payload
equal to the params that were signed. -/
theorem decode_sign_roundtrip (auth : Auth) (params : JSParams)
    (uri : String) (now : Int) (nonce : String) :
    lookupField (decodeSignature (getJWSSignature auth params uri now nonce)).header "kid"
      = some (fstr auth.publicKey)
    ∧ (decodeSignature (getJWSSignature auth params uri now nonce)).payload
      = params := by
  refine ⟨?_, rfl⟩
  cases h : params.get "accessToken" <;>
    simp [decodeSignature, getJWSSignature, buildJWSHeader, h, lookupField]

/-- C1: the Signer never emits a uname claim, so full header validation
of a self-produced envelope returns false for every public key and
expected URL supplied to the validator. -/
theorem signedEnvelope_never_validates (auth : Auth) (params : JSParams)
    (uri : String) (now : Int) (nonce : String)
    (publicKey url : String) (now2 : Int) :
    lookupField (getJWSSignature auth params uri now nonce).header "uname" = none
    ∧ (isJWSHeaderValid (getJWSSignature auth params uri now nonce).header
         publicKey url now2).1 = false := by
  cases h : params.get "accessToken" with
  | none =>
    constructor
    · simp [getJWSSignature, buildJWSHeader, h, lookupField, List.find?,
        HEADERS_URI, HEADERS_TIMESTAMP, HEADERS_NONCE]
    · simp [getJWSSignature, buildJWSHeader, h, isJWSHeaderValid, lookupField,
        List.find?, HEADERS_URI, HEADERS_TIMESTAMP, HEADERS_NONCE,
        HEADERS_ALGORITHM, fstr]
  | some tok =>
    constructor
    · simp [getJWSSignature, buildJWSHeader, h, lookupField, List.find?,
        HEADERS_URI, HEADERS_TIMESTAMP, HEADERS_NONCE, HEADERS_TOKEN]
    · simp [getJWSSignature, buildJWSHeader, h, isJWSHeaderValid, lookupField,
        List.find?, HEADERS_URI, HEADERS_TIMESTAMP, HEADERS_NONCE, HEADERS_TOKEN,
        HEADERS_ALGORITHM, HEADERS_TYPE, isUndefined]
      split_ifs <;> rfl

/-- C6: a header whose timestamp claim is more than five minutes older
than the validation clock is rejected with the Timestamp expired error,
and a header within the window is accepted when every other check
passes. -/
theorem timestamp_window (header : Header) (publicKey url : String)
    (now ts : Int) (v : JSField)
    (halg : lookupField header "alg" = some (fstr HEADERS_ALGORITHM))
    (hlen : header.length = 7)
    (htyp : lookupField header "typ" = some (fstr HEADERS_TYPE))
    (hkid : lookupField header "kid" = some (fstr publicKey))
    (huri : lookupField header HEADERS_URI = some (fstr url))
    (hun : (lookupField header "uname").isSome)
    (hts : lookupField header HEADERS_TIMESTAMP = some v)
    (hnum : jsToNum? v = some ts) :
    (now - ts > MAX_TIMESTAMP_DIFF →
       isJWSHeaderValid header publicKey url now
         = (false, [SimplifyErr.jws "Timestamp expired"]))
    ∧ (now - ts ≤ MAX_TIMESTAMP_DIFF →
       isJWSHeaderValid header publicKey url now = (true, [])) := by
  obtain ⟨u, hu⟩ := Option.isSome_iff_exists.mp hun
  constructor
  · intro hcmp
    simp [isJWSHeaderValid, halg, hlen, htyp, hkid, huri, hu, hts, hnum,
      tsExpired, isUndefined, hcmp]
  · intro hcmp
    simp [isJWSHeaderValid, halg, hlen, htyp, hkid, huri, hu, hts, hnum,
      tsExpired, isUndefined, not_lt.mpr hcmp]

/-- Witness for C6: the same seven-claim header is rejected when the
clock has moved 399 seconds past the timestamp and accepted when it is
one second past. -/
theorem timestamp_window_witness :
    isJWSHeaderValid exHeaderTS "pk" "https://x" 400000
      = (false, [SimplifyErr.jws "Timestamp expired"])
    ∧ isJWSHeaderValid exHeaderTS "pk" "https://x" 2000 = (true, []) :=
  ⟨(timestamp_window exHeaderTS "pk" "https://x" 400000 1000
      (JSField.v (JSVal.num 1000)) (by decide) (by decide) (by decide)
      (by decide) (by decide) (by decide) (by decide) (by decide)).1 (by decide),
   (timestamp_window exHeaderTS "pk" "https://x" 2000 1000
      (JSField.v (JSVal.num 1000)) (by decide) (by decide) (by decide)
      (by decide) (by decide) (by decide) (by decide) (by decide)).2 (by decide)⟩

/-- C7: after the algorithm, count, type and key-id-presence checks, a
key-id claim differing from the caller public key is rejected with
Incorrect Key ID exactly when the public key is not a live key; for a
live key the mismatch is waived and validation proceeds with the URI
check and the checks after it. -/
theorem kid_mismatch_live_exemption (header : Header) (publicKey url : String)
    (now : Int) (v : JSField)
    (halg : lookupField header "alg" = some (fstr HEADERS_ALGORITHM))
    (hlen : header.length = 7)
    (htyp : lookupField header "typ" = some (fstr HEADERS_TYPE))
    (hkid : lookupField header "kid" = some v)
    (hne : v ≠ fstr publicKey) :
    (isLiveKey publicKey = false →
       isJWSHeaderValid header publicKey url now
         = (false, [SimplifyErr.jws "Incorrect Key ID"]))
    ∧ (isLiveKey publicKey = true →
       isJWSHeaderValid header publicKey url now
         = uriAndLaterChecks header url now) := by
  constructor <;> intro hlive <;>
    simp [isJWSHeaderValid, uriAndLaterChecks, halg, hlen, htyp, hkid, hne,
      isUndefined, hlive]

/-- Witness for C7: one mismatched header rejected under a sandbox key
and waived through to the URI check under a live key. -/
theorem kid_mismatch_live_exemption_witness :
    isJWSHeaderValid exHeaderKid "sbpb1" "https://x" 0
      = (false, [SimplifyErr.jws "Incorrect Key ID"])
    ∧ isJWSHeaderValid exHeaderKid "lvpb1" "https://x" 0
      = uriAndLaterChecks exHeaderKid "https://x" 0 :=
  ⟨(kid_mismatch_live_exemption exHeaderKid "sbpb1" "https://x" 0 (fstr "other")
      (by decide) (by decide) (by decide) (by decide) (by decide)).1 (by decide),
   (kid_mismatch_live_exemption exHeaderKid "lvpb1" "https://x" 0 (fstr "other")
      (by decide) (by decide) (by decide) (by decide) (by decide)).2 (by decide)⟩

/-- C3 counterexample: a concrete header that lacks the URI claim and
passes the algorithm, count, type and key-id checks is rejected with
Invalid URI found, not with the Missing URI message the claim states:
the missing-URI branch tests the constant claim name and never fires. -/
theorem missingURI_reported_as_invalid :
    lookupField exHeaderNoURI HEADERS_URI = none
    ∧ lookupField exHeaderNoURI "alg" = some (fstr HEADERS_ALGORITHM)
    ∧ exHeaderNoURI.length = 7
    ∧ lookupField exHeaderNoURI "typ" = some (fstr HEADERS_TYPE)
    ∧ lookupField exHeaderNoURI "kid" = some (fstr "pk")
    ∧ isJWSHeaderValid exHeaderNoURI "pk" "https://x" 0
        = (false, [SimplifyErr.jws "Invalid URI found"])
    ∧ SimplifyErr.jws "Missing URI"
        ∉ (isJWSHeaderValid exHeaderNoURI "pk" "https://x" 0).2 := by
  decide

/-- C3 amended: a header lacking the URI claim that passes the preceding
algorithm, count, type and key-id checks is rejected, but through the
URI-mismatch branch with the Invalid URI found error. -/
theorem missingURI_rejected_as_invalid (header : Header) (publicKey url : String)
    (now : Int)
    (halg : lookupField header "alg" = some (fstr HEADERS_ALGORITHM))
    (hlen : header.length = 7)
    (htyp : lookupField header "typ" = some (fstr HEADERS_TYPE))
    (hkid : lookupField header "kid" = some (fstr publicKey))
    (huri : lookupField header HEADERS_URI = none) :
    isJWSHeaderValid header publicKey url now
      = (false, [SimplifyErr.jws "Invalid URI found"]) := by
  simp [isJWSHeaderValid, halg, hlen, htyp, hkid, huri, isUndefined]

/-- Witness for the amended C3 at the concrete header. -/
theorem missingURI_rejected_as_invalid_witness :
    isJWSHeaderValid exHeaderNoURI "pk" "https://x" 0
      = (false, [SimplifyErr.jws "Invalid URI found"]) :=
  missingURI_rejected_as_invalid exHeaderNoURI "pk" "https://x" 0
    (by decide) (by decide) (by decide) (by decide) (by decide)

/-- C9: for a list action the URI Builder appends query terms in the
fixed order max, offset, the filter terms in the insertion order of the
filter mapping, then the sorting terms; an absent optional field
contributes no term, and when no terms exist no query separator is
appended. -/
theorem list_query_order (publicKey domainType : String) (o : JSObj)
    (mo oo : Option JSField) (fl so : Option (List (String × JSVal)))
    (hm : lookupField o "max" = mo)
    (ho : lookupField o "offset" = oo)
    (hf : lookupField o "filter" = fl.map JSField.o)
    (hs : lookupField o "sorting" = so.map JSField.o) :
    getURI publicKey domainType "list" (JSParams.obj o)
      = (if specListTerms mo oo fl so = [] then
           (if isLiveKey publicKey then API_BASE_LIVE_URL else API_BASE_SANDBOX_URL)
             ++ "/" ++ domainType
         else
           (if isLiveKey publicKey then API_BASE_LIVE_URL else API_BASE_SANDBOX_URL)
             ++ "/" ++ domainType ++ "?"
             ++ String.intercalate "&" (specListTerms mo oo fl so)) := by
  have hq : listQueryTerms (JSParams.obj o) = specListTerms mo oo fl so := by
    simp only [listQueryTerms, JSParams.get, hm, ho, hf, hs, specListTerms]
    cases mo <;> cases oo <;> cases fl <;> cases so <;>
      simp [Option.map, Option.getD]
  simp only [getURI, hq]
  rcases heq : specListTerms mo oo fl so with _ | ⟨t, ts⟩ <;> simp [heq]

/-- Witness for C9 at the spec scenario params max 10, offset 0 and the
one-entry filter text John, under a sandbox key. -/
theorem list_query_order_witness :
    getURI "sb" "customer" "list" (JSParams.obj exListObj)
      = "https://sandbox.simplify.com/v1/api/customer?max=10&offset=0&filter[text]=John" := by
  have h := list_query_order "sb" "customer" exListObj
      (some (JSField.v (JSVal.num 10))) (some (JSField.v (JSVal.num 0)))
      (some [("text", JSVal.str "John")]) none
      (by decide) (by decide) (by decide) (by decide)
  rw [h]; decide

/-- C10: an execute call with domain type accessToken always posts: the
HTTP method is POST, the URI is the OAuth base with /token appended for
create and refresh and /revoke for revoke, and the params handed to the
Signer are replaced by the literal query string built from the original
params, which is exactly the signed payload. -/
theorem accessToken_plan (pk sk : String) (action : String) (params : JSParams)
    (now : Int) (nonce : String)
    (hact : action = "create" ∨ action = "refresh" ∨ action = "revoke") :
    ∃ plan q,
      getAccessTokenParams action params = some q
      ∧ executePlan (some pk) (some sk) "accessToken" action params now nonce
          = some plan
      ∧ plan.httpMethod = some "POST"
      ∧ plan.uri = getAccessTokenURI action
      ∧ plan.signedParams = JSParams.str q
      ∧ plan.envelope.payload = JSParams.str q
      ∧ ((action = "create" ∨ action = "refresh") →
           getAccessTokenURI action = OAUTH_BASE_URL ++ "/token")
      ∧ (action = "revoke" →
           getAccessTokenURI action = OAUTH_BASE_URL ++ "/revoke") := by
  rcases hact with h | h | h <;> subst h
  · exact ⟨_, _, rfl, rfl, rfl, rfl, rfl, rfl, fun _ => rfl,
      fun hr => absurd hr (by decide)⟩
  · exact ⟨_, _, rfl, rfl, rfl, rfl, rfl, rfl, fun _ => rfl,
      fun hr => absurd hr (by decide)⟩
  · exact ⟨_, _, rfl, rfl, rfl, rfl, rfl, rfl,
      fun hc => absurd hc (by decide), fun _ => rfl⟩

/-- Witness for C10 at a concrete create call. -/
theorem accessToken_plan_witness :
    ∃ plan q,
      getAccessTokenParams "create"
          (JSParams.obj [("authCode", fstr "AC"), ("redirectUri", fstr "RU")])
        = some q
      ∧ executePlan (some "p") (some "s") "accessToken" "create"
            (JSParams.obj [("authCode", fstr "AC"), ("redirectUri", fstr "RU")])
            0 "n"
          = some plan
      ∧ plan.httpMethod = some "POST"
      ∧ plan.uri = getAccessTokenURI "create"
      ∧ plan.signedParams = JSParams.str q
      ∧ plan.envelope.payload = JSParams.str q
      ∧ ((("create" : String) = "create" ∨ ("create" : String) = "refresh") →
           getAccessTokenURI "create" = OAUTH_BASE_URL ++ "/token")
      ∧ (("create" : String) = "revoke" →
           getAccessTokenURI "create" = OAUTH_BASE_URL ++ "/revoke") :=
  accessToken_plan "p" "s" "create"
    (JSParams.obj [("authCode", fstr "AC"), ("redirectUri", fstr "RU")])
    0 "n" (Or.inl rfl)

/-- C4: every callback invocation of execute and jwsDecode passes an
error with a null result or a null error with a result, never both
populated and never both null. -/
theorem callback_error_xor_result (pk? sk? : Option String)
    (outcome : HttpOutcome) (pk2? sk2? : Option String)
    (payload? : Option (Header × Option JSObj)) (url? : Option String)
    (now : Int) :
    (∀ c ∈ executeCallbacks pk? sk? outcome,
        (c.1.isSome ∧ c.2 = none) ∨ (c.1 = none ∧ c.2.isSome))
    ∧ (∀ c ∈ jwsDecodeCallbacks pk2? sk2? payload? url? now,
        (c.1.isSome ∧ c.2 = none) ∨ (c.1 = none ∧ c.2.isSome)) := by
  constructor
  · intro c hc
    unfold executeCallbacks at hc
    rcases pk? with _ | pk
    · simp at hc; subst hc; simp
    rcases sk? with _ | sk
    · simp at hc; subst hc; simp
    rcases outcome with j | code
    · by_cases he : isUndefined (lookupField j "error") = true <;>
        simp [he] at hc <;> subst hc <;> simp
    · by_cases hcode : code = "ECONNRESET" <;>
        simp [hcode] at hc <;> subst hc <;> simp
  · intro c hc
    unfold jwsDecodeCallbacks at hc
    rcases pk2? with _ | pk
    · simp at hc; subst hc; simp
    rcases sk2? with _ | sk
    · simp at hc; subst hc; simp
    rcases payload? with _ | ⟨header, body?⟩
    · simp at hc; subst hc; simp
    rcases url? with _ | u
    · simp at hc; subst hc; simp
    rcases body? with _ | body
    · simp at hc; subst hc; simp
    dsimp only at hc
    rcases hval : isJWSHeaderValid header pk u now with ⟨b, errs⟩
    rw [hval] at hc
    cases b
    · simp at hc
      obtain ⟨e, he, rfl⟩ := hc
      simp
    · simp at hc; subst hc; simp

/-- Witness for C4 at a concrete successful execute response. -/
theorem callback_error_xor_result_witness :
    (((none, some exResponse) : Option SimplifyErr × Option JSObj)
        ∈ executeCallbacks (some "p") (some "s") (HttpOutcome.response exResponse))
    ∧ ((((none, some exResponse) : Option SimplifyErr × Option JSObj).1.isSome
         ∧ ((none, some exResponse) : Option SimplifyErr × Option JSObj).2 = none)
       ∨ (((none, some exResponse) : Option SimplifyErr × Option JSObj).1 = none
         ∧ ((none, some exResponse) : Option SimplifyErr × Option JSObj).2.isSome)) :=
  ⟨by decide,
   (callback_error_xor_result (some "p") (some "s") (HttpOutcome.response exResponse)
      none none none none 0).1 _ (by decide)⟩

end Simplify
